import Mathlib

/-!
Verification of the rebound-bot trading core (src/trading-bot.go, src/structs.go).

Conventions of the embedding:
* Go `float64` values are modelled as exact rationals (`ℚ`); decimal literals of
  the source become the corresponding rationals.
* Go `int64(x)` conversion (truncation toward zero) is modelled by `ratTrunc`.
* `strconv.ParseFloat` is modelled by `parseFloat` on the plain decimal fragment
  (optional sign, digits, optional fraction, optional exponent); underscores,
  hex floats and Inf/NaN are treated as unparsable.  Go returns the value `0`
  together with an error on a syntax failure, which `parseFloatD` reflects.
* Network effects are modelled by an explicit environment (`GatewayEnv`) giving
  the outcome of each gateway call, and `executeBuy` additionally returns the
  list of gateway calls it performed.
-/

set_option maxRecDepth 10000

namespace ReboundBot

/-- Truncation toward zero of a rational, the semantics of Go's `int64(x)`
conversion for in-range values. -/
def ratTrunc (q : ℚ) : ℤ :=
  if 0 ≤ q then ⌊q⌋ else ⌈q⌉

/-- Sign prefix of a decimal literal, as consumed by `strconv.ParseFloat`. -/
def parseSign : List Char → ℤ × List Char
  | '-' :: rest => (-1, rest)
  | '+' :: rest => (1, rest)
  | cs => (1, cs)

/-- Numeric value of a digit character. -/
def digToNat (c : Char) : ℕ := c.toNat - 48

/-- Value of a digit string, most significant digit first. -/
def digitsVal (ds : List Char) : ℕ := ds.foldl (fun n c => 10 * n + digToNat c) 0

/-- Model of `strconv.ParseFloat` on the plain decimal fragment:
`[sign] (digits [. digits] | digits . | . digits) [(e|E) [sign] digits]`.
Returns `none` exactly when Go would report a syntax error (underscored,
hexadecimal and Inf/NaN forms are outside the model and map to `none`). -/
def parseFloat (s : String) : Option ℚ :=
  let p := parseSign s.toList
  let intDigits := p.2.takeWhile Char.isDigit
  let cs2 := p.2.dropWhile Char.isDigit
  let q : List Char × List Char :=
    match cs2 with
    | '.' :: rest => (rest.takeWhile Char.isDigit, rest.dropWhile Char.isDigit)
    | _ => ([], cs2)
  if intDigits.isEmpty && q.1.isEmpty then none
  else
    let mant : ℚ :=
      (p.1 : ℚ) * ((digitsVal intDigits : ℚ) + (digitsVal q.1 : ℚ) / (10 : ℚ) ^ q.1.length)
    match q.2 with
    | [] => some mant
    | c :: rest =>
      if c = 'e' || c = 'E' then
        let ep := parseSign rest
        let expDigits := ep.2.takeWhile Char.isDigit
        let rest2 := ep.2.dropWhile Char.isDigit
        if expDigits.isEmpty || !rest2.isEmpty then none
        else some (mant * (10 : ℚ) ^ (ep.1 * (digitsVal expDigits : ℤ)))
      else none

/-- Go's `v, _ := strconv.ParseFloat(s, 64)` with the error ignored: a syntax
failure yields the value `0`. -/
def parseFloatD (s : String) : ℚ := (parseFloat s).getD 0

/-- `roundToTickSize` from src/trading-bot.go: parse the tick size, return the
price unchanged on a parse error or a non-positive tick, otherwise
`float64(int64(price/tick+0.5)) * tick`. -/
def roundToTickSize (price : ℚ) (tickSize : String) : ℚ :=
  match parseFloat tickSize with
  | none => price
  | some tick => if tick ≤ 0 then price else (ratTrunc (price / tick + 1 / 2) : ℚ) * tick

/-- `TradingPosition` from src/structs.go.  `BuyTime` (wall-clock time) is
elided; every other field read or written by the trading core is kept. -/
structure TradingPosition where
  ID : ℤ
  Symbol : String
  BuyPrice : ℚ
  Quantity : ℚ
  InvestedAmount : ℚ
  TargetSellPrice : ℚ
  DropPercentage : ℚ
  CurrentValue : ℚ
  SellOrderID : ℤ
  HasActiveSellOrder : Bool
deriving DecidableEq

/-- One entry of `OrderResponse.Fills` from src/structs.go (commission fields
are never read by the core and are elided). -/
structure OrderFill where
  Price : String
  Qty : String
deriving DecidableEq

/-- `OrderResponse` from src/structs.go, restricted to the fields the trading
core reads: `OrderID`, `ExecutedQty` and `Fills`. -/
structure OrderResponse where
  OrderID : ℤ
  ExecutedQty : String
  Fills : List OrderFill
deriving DecidableEq

/-- `SymbolFilters` from src/trading-bot.go. -/
structure SymbolFilters where
  StepSize : String
  TickSize : String
deriving DecidableEq

/-- `OptimizedTicker` from src/structs.go (the redundant `PercentChange24h`
field, never read by the core, is elided). -/
structure OptimizedTicker where
  Symbol : String
  LastPrice : ℚ
  PriceChangePercent : ℚ
deriving DecidableEq

/-- `TradingBot` from src/structs.go, restricted to the state read or written
by `executeBuy` and the budget accounting: total budget, available budget,
investment amount, positions and the position-id counter.  The watch list,
completed trades, statistics, start time and API configuration are not touched
by the verified operations and are elided. -/
structure TradingBot where
  TotalBudget : ℚ
  AvailableBudget : ℚ
  InvestmentAmount : ℚ
  Positions : List TradingPosition
  NextPositionID : ℤ
deriving DecidableEq

/-- State produced by `NewTradingBot` in src/trading-bot.go: both budgets start
at the given balance, the investment amount is the hard-coded 7 USDT, no
positions, id counter at 1.  (The API-credential check of the source concerns
configuration, not the state, and is elided.) -/
def NewTradingBot (budget : ℚ) : TradingBot :=
  { TotalBudget := budget
    AvailableBudget := budget
    InvestmentAmount := 7
    Positions := []
    NextPositionID := 1 }

/-- Outcome of every external gateway call `executeBuy` can make, fixed ahead
of the run: the market-buy submission, the exchange-info (symbol filters)
lookup, and the limit-sell submission per retry attempt (indexed by the
attempt number, starting at 1).  Errors are carried as their message strings. -/
structure GatewayEnv where
  buy : Except String OrderResponse
  filters : Except String SymbolFilters
  sell : ℕ → Except String OrderResponse

/-- A call to the order-execution gateway, for counting side effects. -/
inductive GatewayCall where
  | marketBuy
  | exchangeInfo
  | limitSell
deriving DecidableEq

/-- The fill-averaging loop of `executeBuy` (src/trading-bot.go lines 562-574):
`totalValue = Σ price·qty`, `totalQty = Σ qty` over the fills, each field read
with `strconv.ParseFloat` and the error ignored; the average is
`totalValue / totalQty` when `totalQty > 0` and otherwise stays `0` (also when
the fills list is empty). -/
def avgFillPriceFromFills (fills : List OrderFill) : ℚ :=
  let totalValue := (fills.map (fun f => parseFloatD f.Price * parseFloatD f.Qty)).sum
  let totalQty := (fills.map (fun f => parseFloatD f.Qty)).sum
  if 0 < totalQty then totalValue / totalQty else 0

/-- The average fill price used by `executeBuy`: the fill average, falling back
to the snapshot last price when that average is `0`
(src/trading-bot.go lines 576-578). -/
def avgPrice (resp : OrderResponse) (lastPrice : ℚ) : ℚ :=
  let a := avgFillPriceFromFills resp.Fills
  if a = 0 then lastPrice else a

/-- The retry loop of `executeBuy` (src/trading-bot.go lines 618-629), running
attempts `retry, retry+1, ...` with `left` further attempts allowed after the
current one; returns the last result together with the number of attempts
made.  Breaks on the first success. -/
def retryGo (op : ℕ → Except String OrderResponse) (retry : ℕ) :
    ℕ → Except String OrderResponse × ℕ
  | 0 => (op retry, 1)
  | left + 1 =>
    match op retry with
    | Except.ok r => (Except.ok r, 1)
    | Except.error _ =>
      let p := retryGo op (retry + 1) left
      (p.1, p.2 + 1)

/-- `maxRetries := 3` from src/trading-bot.go line 614. -/
def maxRetries : ℕ := 3

/-- The retry controller wrapping limit-sell placement: attempts numbered from
1 up to `maxRetries`, stopping at the first success; returns the final result
and the number of attempts made. -/
def retrySell (op : ℕ → Except String OrderResponse) : Except String OrderResponse × ℕ :=
  retryGo op 1 (maxRetries - 1)

/-- The position record built by `executeBuy` right after a successful market
buy (src/trading-bot.go lines 580-592), before any sell-order placement. -/
def initialPosition (bot : TradingBot) (coin : OptimizedTicker) (dropPercentage : ℚ)
    (resp : OrderResponse) : TradingPosition :=
  let actualQty := parseFloatD resp.ExecutedQty
  let price := avgPrice resp coin.LastPrice
  { ID := bot.NextPositionID
    Symbol := coin.Symbol
    BuyPrice := price
    Quantity := actualQty
    InvestedAmount := bot.InvestmentAmount
    TargetSellPrice := price * (105 / 100)
    DropPercentage := dropPercentage
    CurrentValue := price * actualQty
    SellOrderID := 0
    HasActiveSellOrder := false }

/-- The position as finally appended by `executeBuy` (src/trading-bot.go
lines 601-641): if the symbol-filter lookup fails, or every limit-sell attempt
fails, the initial position is kept (no active sell order); on a successful
limit sell the sell-order id is stored, the active flag set, and the target
sell price replaced by the tick-rounded value. -/
def finalPosition (env : GatewayEnv) (bot : TradingBot) (coin : OptimizedTicker)
    (dropPercentage : ℚ) (resp : OrderResponse) : TradingPosition :=
  let position := initialPosition bot coin dropPercentage resp
  match env.filters with
  | Except.error _ => position
  | Except.ok filters =>
    let roundedSellPrice := roundToTickSize position.TargetSellPrice filters.TickSize
    match (retrySell env.sell).1 with
    | Except.error _ => position
    | Except.ok sellOrderResp =>
      { position with
          SellOrderID := sellOrderResp.OrderID
          HasActiveSellOrder := true
          TargetSellPrice := roundedSellPrice }

/-- The gateway calls made after a successful buy for sell placement: none when
the filter lookup failed, otherwise one limit-sell call per retry attempt. -/
def sellCalls (env : GatewayEnv) : List GatewayCall :=
  match env.filters with
  | Except.error _ => []
  | Except.ok _ => List.replicate (retrySell env.sell).2 GatewayCall.limitSell

/-- `executeBuy` from src/trading-bot.go (lines 542-653), with the gateway
outcomes supplied by `env`; returns the updated bot state together with the
list of gateway calls performed.  Guard: insufficient budget means no calls
and no mutation.  A buy-submission error aborts with no mutation.  On a
successful buy the position (with its sell-order outcome), the budget
decrement and the id-counter increment are committed together. -/
def executeBuy (env : GatewayEnv) (bot : TradingBot) (coin : OptimizedTicker)
    (dropPercentage : ℚ) : TradingBot × List GatewayCall :=
  if bot.AvailableBudget < bot.InvestmentAmount then (bot, [])
  else
    match env.buy with
    | Except.error _ => (bot, [GatewayCall.marketBuy])
    | Except.ok orderResp =>
      ({ bot with
          Positions := bot.Positions ++ [finalPosition env bot coin dropPercentage orderResp]
          AvailableBudget := bot.AvailableBudget - bot.InvestmentAmount
          NextPositionID := bot.NextPositionID + 1 },
       GatewayCall.marketBuy :: GatewayCall.exchangeInfo :: sellCalls env)

/-- A decision signal of the per-coin analysis loop in
`analyzeTradingOpportunities`. -/
inductive TradeSignal where
  | skip
  | watch
  | buy
  | hold
  | risky
deriving DecidableEq

/-- The signal classification of one coin by `analyzeTradingOpportunities`
(src/trading-bot.go lines 485-523), as the list of signals the loop body emits
for a 24h percent change: the safety check `≤ -11` skips the rest of the body;
otherwise the watch check (`≤ -4.5 && > -5`) emits its signal without
short-circuiting, followed by the buy / hold / risky chain. -/
def classifySignals (change : ℚ) : List TradeSignal :=
  if change ≤ -11 then [TradeSignal.skip]
  else
    (if change ≤ -9/2 ∧ change > -5 then [TradeSignal.watch] else []) ++
    (if change ≤ -5 ∧ change > -10 then [TradeSignal.buy]
     else if change > -5 then [TradeSignal.hold]
     else if change ≤ -10 ∧ change > -11 then [TradeSignal.risky]
     else [])

/-- One element of a sequence of `executeBuy` calls: the gateway outcomes and
the per-call arguments. -/
structure BuyInput where
  env : GatewayEnv
  coin : OptimizedTicker
  dropPercentage : ℚ

/-- Fold a sequence of `executeBuy` calls over the bot state. -/
def runBuys (bot : TradingBot) : List BuyInput → TradingBot
  | [] => bot
  | i :: rest => runBuys (executeBuy i.env bot i.coin i.dropPercentage).1 rest

/-- A buy is accepted when the budget guard passes and the market-buy
submission succeeds. -/
def acceptedBuy (env : GatewayEnv) (bot : TradingBot) : Bool :=
  !(decide (bot.AvailableBudget < bot.InvestmentAmount)) &&
    (match env.buy with
     | Except.ok _ => true
     | Except.error _ => false)

/-- Number of accepted buys along a sequence of `executeBuy` calls. -/
def countAccepted (bot : TradingBot) : List BuyInput → ℕ
  | [] => 0
  | i :: rest =>
    (if acceptedBuy i.env bot then 1 else 0) +
      countAccepted (executeBuy i.env bot i.coin i.dropPercentage).1 rest

/-! ### Concrete sample data shared by the witnesses -/

/-- A sample snapshot entry (a coin in the 5-10% drop range). -/
def sampleCoin : OptimizedTicker :=
  { Symbol := "BTCUSDT", LastPrice := 10, PriceChangePercent := -7 }

/-- A sample successful market-buy response. -/
def sampleResp : OrderResponse :=
  { OrderID := 42, ExecutedQty := "0.7"
    Fills := [{ Price := "10", Qty := "0.7" }] }

/-- A sample successful limit-sell response. -/
def sampleSellResp : OrderResponse :=
  { OrderID := 91, ExecutedQty := "0.7", Fills := [] }

/-- Sample symbol trading rules. -/
def sampleFilters : SymbolFilters := { StepSize := "0.00001", TickSize := "0.01" }

/-- A gateway environment in which every call succeeds. -/
def sampleEnv : GatewayEnv :=
  { buy := Except.ok sampleResp
    filters := Except.ok sampleFilters
    sell := fun _ => Except.ok sampleSellResp }

/-- A gateway environment whose market-buy submission fails. -/
def buyErrEnv : GatewayEnv :=
  { buy := Except.error "buy order failed with status 400"
    filters := Except.ok sampleFilters
    sell := fun _ => Except.ok sampleSellResp }

/-- A gateway environment where the buy succeeds but the symbol-filter lookup
fails. -/
def filterErrEnv : GatewayEnv :=
  { buy := Except.ok sampleResp
    filters := Except.error "could not get symbol filters"
    sell := fun _ => Except.ok sampleSellResp }

/-- An operation that fails on attempts 1 and 2 and succeeds on attempt 3. -/
def failTwiceOp : ℕ → Except String OrderResponse := fun k =>
  if 3 ≤ k then Except.ok sampleSellResp else Except.error "sell order failed"

/-- A one-element sequence of buys under the all-success environment. -/
def sampleInputs : List BuyInput :=
  [{ env := sampleEnv, coin := sampleCoin, dropPercentage := -7 }]

/-- A buy response whose executed quantity does not parse. -/
def unparsableQtyResp : OrderResponse :=
  { OrderID := 77, ExecutedQty := "oops", Fills := [] }

/-- Environment returning that response for the buy, with the later calls
failing. -/
def unparsableQtyEnv : GatewayEnv :=
  { buy := Except.ok unparsableQtyResp
    filters := Except.error "exchange info request failed"
    sell := fun _ => Except.error "sell order failed" }

/-! ### Helper lemmas -/

/-- Unrolling of the retry loop for `maxRetries = 3`. -/
theorem retrySell_eval (op : ℕ → Except String OrderResponse) :
    retrySell op =
      match op 1 with
      | Except.ok r => (Except.ok r, 1)
      | Except.error _ =>
        match op 2 with
        | Except.ok r => (Except.ok r, 2)
        | Except.error _ => (op 3, 3) := by
  rcases h1 : op 1 with e1 | r1 <;> rcases h2 : op 2 with e2 | r2 <;>
    simp [retrySell, maxRetries, retryGo, h1, h2]

/-- A successful retry result comes from one of the three attempts. -/
theorem retrySell_ok_exists (op : ℕ → Except String OrderResponse) (r : OrderResponse)
    (h : (retrySell op).1 = Except.ok r) :
    op 1 = Except.ok r ∨ op 2 = Except.ok r ∨ op 3 = Except.ok r := by
  rw [retrySell_eval] at h
  rcases h1 : op 1 with e1 | r1 <;> rw [h1] at h
  · rcases h2 : op 2 with e2 | r2 <;> rw [h2] at h
    · exact Or.inr (Or.inr h)
    · exact Or.inr (Or.inl h)
  · exact Or.inl h

/-! ### C1 — signal classifier zones -/

/-- C1, counterexample: the claim puts x = −10.0 in BUY and (−5.0, −4.5] in
WATCH alone; the loop body classifies −10.0 as RISKY (the buy condition is
`change <= -5.0 && change > -10.0`, excluding −10.0, and the risky branch
`change <= -10.0 && change > -11.0` includes it), and at −4.75 it emits both
the WATCH signal and a HOLD signal (the watch branch does not short-circuit
the hold branch `change > -5.0`). -/
theorem classifySignals_claim_counterexample :
    classifySignals (-10) = [TradeSignal.risky] ∧
    classifySignals (-10) ≠ [TradeSignal.buy] ∧
    classifySignals (-19/4) = [TradeSignal.watch, TradeSignal.hold] ∧
    classifySignals (-19/4) ≠ [TradeSignal.watch] := by
  with_unfolding_all decide

/-- C1 (amended): the classifier is a pure function of the 24h percent change
x: x ≤ −11.0 emits SKIP; −11.0 < x ≤ −10.0 emits RISKY (x = −10.0 included);
−10.0 < x ≤ −5.0 emits BUY (x = −5.0 included); −5.0 < x ≤ −4.5 emits WATCH
together with HOLD; x > −4.5 emits HOLD. -/
theorem classifySignals_zones (x : ℚ) :
    (x ≤ -11 → classifySignals x = [TradeSignal.skip]) ∧
    (-11 < x → x ≤ -10 → classifySignals x = [TradeSignal.risky]) ∧
    (-10 < x → x ≤ -5 → classifySignals x = [TradeSignal.buy]) ∧
    (-5 < x → x ≤ -9/2 → classifySignals x = [TradeSignal.watch, TradeSignal.hold]) ∧
    (-9/2 < x → classifySignals x = [TradeSignal.hold]) := by
  refine ⟨fun h1 => ?_, fun h1 h2 => ?_, fun h1 h2 => ?_, fun h1 h2 => ?_, fun h1 => ?_⟩
  · simp [classifySignals, h1]
  · have hA : ¬ x ≤ -11 := by linarith
    have hW : ¬ (x ≤ -9/2 ∧ x > -5) := by rintro ⟨-, h⟩; linarith
    have hB : ¬ (x ≤ -5 ∧ x > -10) := by rintro ⟨-, h⟩; linarith
    have hH : ¬ x > -5 := by linarith
    have hR : x ≤ -10 ∧ x > -11 := ⟨h2, h1⟩
    simp [classifySignals, hA, hW, hB, hH, hR]
  · have hA : ¬ x ≤ -11 := by linarith
    have hW : ¬ (x ≤ -9/2 ∧ x > -5) := by rintro ⟨-, h⟩; linarith
    have hH : ¬ x > -5 := by linarith
    have hB : x ≤ -5 ∧ x > -10 := ⟨h2, h1⟩
    simp [classifySignals, hA, hW, hH, hB]
  · have hA : ¬ x ≤ -11 := by linarith
    have hW : x ≤ -9/2 ∧ x > -5 := ⟨h2, h1⟩
    have hB : ¬ (x ≤ -5 ∧ x > -10) := by rintro ⟨h, -⟩; linarith
    have hH : x > -5 := h1
    simp [classifySignals, hA, hW, hB, hH]
  · have hA : ¬ x ≤ -11 := by linarith
    have hW : ¬ x ≤ -9/2 := by linarith
    have hB : ¬ (x ≤ -5 ∧ x > -10) := by rintro ⟨h, -⟩; linarith
    have hH : x > -5 := by linarith
    simp [classifySignals, hA, hW, hB, hH]

/-- C1 witness: the amended classifier at the concrete BUY-zone input −7. -/
theorem classifySignals_zones_witness :
    classifySignals (-7) = [TradeSignal.buy] :=
  (classifySignals_zones (-7)).2.2.1 (by norm_num) (by norm_num)

/-! ### C3 — budget guard performs no side effects -/

/-- C3: if the available budget is below the investment unit, `executeBuy`
performs zero gateway calls and leaves the bot state unchanged. -/
theorem executeBuy_guard_no_side_effects (env : GatewayEnv) (bot : TradingBot)
    (coin : OptimizedTicker) (dropPercentage : ℚ)
    (h : bot.AvailableBudget < bot.InvestmentAmount) :
    executeBuy env bot coin dropPercentage = (bot, []) := by
  unfold executeBuy
  rw [if_pos h]

/-- C3 witness: a fresh bot with balance 5 (below the 7 USDT unit) is left
untouched with an empty call trace. -/
theorem executeBuy_guard_no_side_effects_witness :
    executeBuy sampleEnv (NewTradingBot 5) sampleCoin (-7) = (NewTradingBot 5, []) :=
  executeBuy_guard_no_side_effects sampleEnv (NewTradingBot 5) sampleCoin (-7)
    (by norm_num [NewTradingBot])

/-! ### C4 — buy-submission error aborts with zero mutation -/

/-- C4: under the budget guard, a market-buy error makes `executeBuy` abort
after that single gateway call with the bot state exactly as before. -/
theorem executeBuy_buy_error_no_mutation (env : GatewayEnv) (bot : TradingBot)
    (coin : OptimizedTicker) (dropPercentage : ℚ) (e : String)
    (hg : ¬ bot.AvailableBudget < bot.InvestmentAmount) (he : env.buy = Except.error e) :
    executeBuy env bot coin dropPercentage = (bot, [GatewayCall.marketBuy]) := by
  unfold executeBuy
  rw [if_neg hg, he]

/-- C4 witness: with a funded bot and a failing buy submission, the state is
unchanged and only the buy call happened. -/
theorem executeBuy_buy_error_no_mutation_witness :
    executeBuy buyErrEnv (NewTradingBot 100) sampleCoin (-7)
      = (NewTradingBot 100, [GatewayCall.marketBuy]) :=
  executeBuy_buy_error_no_mutation buyErrEnv (NewTradingBot 100) sampleCoin (-7)
    "buy order failed with status 400" (by norm_num [NewTradingBot]) rfl

/-! ### C5 — accepted buys commit atomically -/

/-- C5: on an accepted buy, `executeBuy` produces exactly the state with one
position appended, the available budget decremented by the investment unit and
the id counter advanced by one — a single atomic record update, so no partial
application is observable; and when the rule lookup fails or every sell
attempt fails, the appended position has no active sell order. -/
theorem executeBuy_accepted_atomic (env : GatewayEnv) (bot : TradingBot)
    (coin : OptimizedTicker) (dropPercentage : ℚ) (resp : OrderResponse)
    (hg : ¬ bot.AvailableBudget < bot.InvestmentAmount) (hb : env.buy = Except.ok resp) :
    (executeBuy env bot coin dropPercentage).1
      = { bot with
          Positions := bot.Positions ++ [finalPosition env bot coin dropPercentage resp]
          AvailableBudget := bot.AvailableBudget - bot.InvestmentAmount
          NextPositionID := bot.NextPositionID + 1 } ∧
    (((∃ msg, env.filters = Except.error msg) ∨
        (∃ e₁ e₂ e₃, env.sell 1 = Except.error e₁ ∧ env.sell 2 = Except.error e₂ ∧
          env.sell 3 = Except.error e₃)) →
      (finalPosition env bot coin dropPercentage resp).HasActiveSellOrder = false) := by
  constructor
  · unfold executeBuy
    rw [if_neg hg, hb]
  · intro hdeg
    unfold finalPosition
    rcases hdeg with ⟨msg, hf⟩ | ⟨e₁, e₂, e₃, h1, h2, h3⟩
    · rw [hf]
      rfl
    · rcases hf : env.filters with msg | f
      · rfl
      · have hr : (retrySell env.sell).1 = Except.error e₃ := by
          rw [retrySell_eval, h1, h2, h3]

        rw [hr]
        rfl

/-- C5 witness: with a funded fresh bot, a successful buy and a failing rule
lookup, the final state is exactly the atomic update and the appended position
has no active sell order. -/
theorem executeBuy_accepted_atomic_witness :
    (executeBuy filterErrEnv (NewTradingBot 100) sampleCoin (-7)).1
      = { TotalBudget := 100, AvailableBudget := 93, InvestmentAmount := 7
          Positions := [finalPosition filterErrEnv (NewTradingBot 100) sampleCoin (-7) sampleResp]
          NextPositionID := 2 } ∧
    (finalPosition filterErrEnv (NewTradingBot 100) sampleCoin (-7) sampleResp).HasActiveSellOrder
      = false := by
  have h := executeBuy_accepted_atomic filterErrEnv (NewTradingBot 100) sampleCoin (-7)
    sampleResp (by norm_num [NewTradingBot]) rfl
  refine ⟨?_, h.2 (Or.inl ⟨"could not get symbol filters", rfl⟩)⟩
  rw [h.1]
  norm_num [NewTradingBot]

/-! ### C7 — bounded fixed-delay retry controller -/

/-- C7: the retry controller makes at most `maxRetries = 3` attempts, stops at
the first success, and otherwise runs attempt 3 and returns its outcome — so
an operation failing twice then succeeding is attempted exactly 3 times with
the success returned, and an always-failing operation is attempted exactly 3
times with the last error returned. -/
theorem retrySell_spec (op : ℕ → Except String OrderResponse) :
    (retrySell op).2 ≤ maxRetries ∧
    (∀ r, op 1 = Except.ok r → retrySell op = (Except.ok r, 1)) ∧
    (∀ e r, op 1 = Except.error e → op 2 = Except.ok r → retrySell op = (Except.ok r, 2)) ∧
    (∀ e₁ e₂, op 1 = Except.error e₁ → op 2 = Except.error e₂ →
      retrySell op = (op 3, 3)) := by
  refine ⟨?_, ?_, ?_, ?_⟩
  · rcases h1 : op 1 with e1 | r1 <;> rcases h2 : op 2 with e2 | r2 <;>
      simp [retrySell_eval, h1, h2, maxRetries]
  · intro r h
    rw [retrySell_eval, h]
  · intro e r h1 h2
    rw [retrySell_eval, h1, h2]
  · intro e₁ e₂ h1 h2
    rw [retrySell_eval, h1, h2]

/-- C7 witness: the fail-fail-succeed operation is attempted exactly 3 times
and its success is returned. -/
theorem retrySell_spec_witness :
    retrySell failTwiceOp = (Except.ok sampleSellResp, 3) := by
  have h := (retrySell_spec failTwiceOp).2.2.2 "sell order failed" "sell order failed" rfl rfl
  rw [h]
  rfl

/-! ### C2 — budget accounting invariant -/

/-- Effect of one `executeBuy` call on the budget fields: the total budget and
investment amount never change, the available budget drops by the investment
unit exactly on an accepted buy, and nonnegativity is preserved (the guard
only lets a buy through when `available ≥ unit`). -/
theorem executeBuy_step (env : GatewayEnv) (bot : TradingBot) (coin : OptimizedTicker)
    (d : ℚ) :
    (executeBuy env bot coin d).1.TotalBudget = bot.TotalBudget ∧
    (executeBuy env bot coin d).1.InvestmentAmount = bot.InvestmentAmount ∧
    (executeBuy env bot coin d).1.AvailableBudget
      = bot.AvailableBudget - (if acceptedBuy env bot = true then bot.InvestmentAmount else 0) ∧
    (0 ≤ bot.AvailableBudget → 0 ≤ (executeBuy env bot coin d).1.AvailableBudget) := by
  by_cases hg : bot.AvailableBudget < bot.InvestmentAmount
  · simp [executeBuy, acceptedBuy, hg]
  · have hle : bot.InvestmentAmount ≤ bot.AvailableBudget := not_lt.mp hg
    rcases hb : env.buy with e | r
    · simp [executeBuy, acceptedBuy, hg, hb]
    · refine ⟨by simp [executeBuy, hg, hb], by simp [executeBuy, hg, hb], ?_, ?_⟩
      · simp [executeBuy, acceptedBuy, hg, hb]
      · intro h0
        simp only [executeBuy, if_neg hg, hb]
        simp
        linarith

/-- Budget bookkeeping along any sequence of `executeBuy` calls, generalised
over the starting state: totals and unit are constant, the available budget is
the initial one minus the unit per accepted buy, and it stays nonnegative. -/
theorem runBuys_spec (inputs : List BuyInput) :
    ∀ bot : TradingBot, 0 ≤ bot.AvailableBudget →
      (runBuys bot inputs).TotalBudget = bot.TotalBudget ∧
      (runBuys bot inputs).InvestmentAmount = bot.InvestmentAmount ∧
      (runBuys bot inputs).AvailableBudget
        = bot.AvailableBudget - bot.InvestmentAmount * (countAccepted bot inputs : ℚ) ∧
      0 ≤ (runBuys bot inputs).AvailableBudget := by
  induction inputs with
  | nil =>
    intro bot h0
    simpa [runBuys, countAccepted] using h0
  | cons i rest ih =>
    intro bot h0
    obtain ⟨hT, hI, hA, hN⟩ := executeBuy_step i.env bot i.coin i.dropPercentage
    obtain ⟨hT', hI', hA', hN'⟩ :=
      ih (executeBuy i.env bot i.coin i.dropPercentage).1 (hN h0)
    refine ⟨?_, ?_, ?_, ?_⟩
    · rw [runBuys, hT', hT]
    · rw [runBuys, hI', hI]
    · rw [runBuys, hA', hA, hI, countAccepted]
      by_cases hacc : acceptedBuy i.env bot = true
      · rw [if_pos hacc, if_pos hacc]
        push_cast
        ring
      · rw [if_neg hacc, if_neg hacc]
        push_cast
        ring
    · rw [runBuys]
      exact hN'

/-- C2: starting from a freshly created bot with a nonnegative balance, after
any sequence of `executeBuy` calls the available budget equals the total
budget minus the investment unit times the number of accepted buys, and the
available budget is never negative. -/
theorem executeBuy_budget_invariant (budget : ℚ) (h : 0 ≤ budget)
    (inputs : List BuyInput) :
    (runBuys (NewTradingBot budget) inputs).AvailableBudget
      = (runBuys (NewTradingBot budget) inputs).TotalBudget
        - (runBuys (NewTradingBot budget) inputs).InvestmentAmount
          * (countAccepted (NewTradingBot budget) inputs : ℚ) ∧
    0 ≤ (runBuys (NewTradingBot budget) inputs).AvailableBudget := by
  obtain ⟨hT, hI, hA, hN⟩ :=
    runBuys_spec inputs (NewTradingBot budget) (by simpa [NewTradingBot] using h)
  refine ⟨?_, hN⟩
  rw [hA, hT, hI]
  simp [NewTradingBot]

/-- C2 witness: the invariant instantiated at balance 10 and one accepted
buy. -/
theorem executeBuy_budget_invariant_witness :
    0 ≤ (10 : ℚ) ∧
    ((runBuys (NewTradingBot 10) sampleInputs).AvailableBudget
      = (runBuys (NewTradingBot 10) sampleInputs).TotalBudget
        - (runBuys (NewTradingBot 10) sampleInputs).InvestmentAmount
          * (countAccepted (NewTradingBot 10) sampleInputs : ℚ) ∧
     0 ≤ (runBuys (NewTradingBot 10) sampleInputs).AvailableBudget) :=
  ⟨by norm_num, executeBuy_budget_invariant 10 (by norm_num) sampleInputs⟩

/-! ### C6 — numeric-parse handling of order responses -/

/-- The quantity of the appended position is always the (error-ignoring) parse
of the executed quantity, whatever the sell-placement outcome. -/
theorem finalPosition_quantity (env : GatewayEnv) (bot : TradingBot)
    (coin : OptimizedTicker) (dropPercentage : ℚ) (resp : OrderResponse) :
    (finalPosition env bot coin dropPercentage resp).Quantity
      = parseFloatD resp.ExecutedQty := by
  unfold finalPosition
  rcases hf : env.filters with msg | f
  · rfl
  · rcases hr : (retrySell env.sell).1 with e | r <;> rfl

/-- The buy price of the appended position is always the average fill price
with its last-price fallback, whatever the sell-placement outcome. -/
theorem finalPosition_buyPrice (env : GatewayEnv) (bot : TradingBot)
    (coin : OptimizedTicker) (dropPercentage : ℚ) (resp : OrderResponse) :
    (finalPosition env bot coin dropPercentage resp).BuyPrice
      = avgPrice resp coin.LastPrice := by
  unfold finalPosition
  rcases hf : env.filters with msg | f
  · rfl
  · rcases hr : (retrySell env.sell).1 with e | r <;> rfl

/-- C6, counterexample: the executed quantity "oops" does not parse, yet
`executeBuy` silently creates a position (with quantity 0) instead of
propagating an error — the source ignores the `strconv.ParseFloat` error. -/
theorem executedQty_parse_failure_counterexample :
    parseFloat unparsableQtyResp.ExecutedQty = none ∧
    (executeBuy unparsableQtyEnv (NewTradingBot 10) sampleCoin (-7)).1.Positions
      = [finalPosition unparsableQtyEnv (NewTradingBot 10) sampleCoin (-7) unparsableQtyResp] ∧
    (finalPosition unparsableQtyEnv (NewTradingBot 10) sampleCoin (-7)
        unparsableQtyResp).Quantity = 0 := by
  with_unfolding_all decide

/-- C6 (amended): numeric-parse failures on order-response fields are ignored,
not propagated: on an accepted buy a position is always appended; an
unparsable executed quantity yields a position with quantity 0; and the
documented fill-price fallback applies exactly when the computed average fill
price is 0 — in particular when the fills list is empty — setting the buy
price to the snapshot's last price. -/
theorem numeric_parse_fallbacks (env : GatewayEnv) (bot : TradingBot)
    (coin : OptimizedTicker) (dropPercentage : ℚ) (resp : OrderResponse)
    (hg : ¬ bot.AvailableBudget < bot.InvestmentAmount) (hb : env.buy = Except.ok resp) :
    (executeBuy env bot coin dropPercentage).1.Positions.length
      = bot.Positions.length + 1 ∧
    (parseFloat resp.ExecutedQty = none →
      (finalPosition env bot coin dropPercentage resp).Quantity = 0) ∧
    (avgFillPriceFromFills resp.Fills = 0 →
      (finalPosition env bot coin dropPercentage resp).BuyPrice = coin.LastPrice) ∧
    (resp.Fills = [] →
      (finalPosition env bot coin dropPercentage resp).BuyPrice = coin.LastPrice) := by
  have hfills : resp.Fills = [] → avgFillPriceFromFills resp.Fills = 0 := by
    intro h
    simp [avgFillPriceFromFills, h]
  refine ⟨?_, ?_, ?_, fun h => ?_⟩
  · simp [executeBuy, hg, hb]
  · intro h
    rw [finalPosition_quantity]
    simp [parseFloatD, h]
  · intro h
    rw [finalPosition_buyPrice]
    simp [avgPrice, h]
  · rw [finalPosition_buyPrice]
    simp [avgPrice, hfills h]

/-- C6 witness: the amended behaviour at the unparsable-quantity input. -/
theorem numeric_parse_fallbacks_witness :
    (executeBuy unparsableQtyEnv (NewTradingBot 10) sampleCoin (-7)).1.Positions.length
      = (NewTradingBot 10).Positions.length + 1 ∧
    (finalPosition unparsableQtyEnv (NewTradingBot 10) sampleCoin (-7)
        unparsableQtyResp).Quantity = 0 ∧
    (finalPosition unparsableQtyEnv (NewTradingBot 10) sampleCoin (-7)
        unparsableQtyResp).BuyPrice = sampleCoin.LastPrice := by
  have h := numeric_parse_fallbacks unparsableQtyEnv (NewTradingBot 10) sampleCoin (-7)
    unparsableQtyResp (by norm_num [NewTradingBot]) rfl
  exact ⟨h.1, h.2.1 (by with_unfolding_all decide), h.2.2.2 rfl⟩

/-! ### C8 — tick-size normalizer idempotence -/

/-- C8, counterexample: for the positive parsable tick "1", idempotence fails
at the negative price −3: the truncation toward zero in `int64(price/tick+0.5)`
maps −3 to −2 but −2 to −1. -/
theorem roundToTickSize_idempotence_counterexample :
    parseFloat "1" = some 1 ∧ (0 : ℚ) < 1 ∧
    roundToTickSize (roundToTickSize (-3) "1") "1" ≠ roundToTickSize (-3) "1" := by
  with_unfolding_all decide

/-- C8 (amended): the normalizer is idempotent for every nonnegative price and
every positive parsable tick size. -/
theorem roundToTickSize_idempotent (p t : ℚ) (s : String)
    (hs : parseFloat s = some t) (ht : 0 < t) (hp : 0 ≤ p) :
    roundToTickSize (roundToTickSize p s) s = roundToTickSize p s := by
  have htne : t ≠ 0 := ne_of_gt ht
  have hnle : ¬ t ≤ 0 := not_le.mpr ht
  simp only [roundToTickSize, hs, if_neg hnle]
  have hdiv : 0 ≤ p / t := div_nonneg hp ht.le
  have harg : 0 ≤ p / t + 1 / 2 := by linarith
  have hfloor : ratTrunc (p / t + 1 / 2) = ⌊p / t + 1 / 2⌋ := by
    rw [ratTrunc, if_pos harg]
  have hn0 : 0 ≤ ratTrunc (p / t + 1 / 2) := by
    rw [hfloor]
    exact Int.floor_nonneg.mpr harg
  have hcancel : (ratTrunc (p / t + 1 / 2) : ℚ) * t / t = (ratTrunc (p / t + 1 / 2) : ℚ) :=
    mul_div_cancel_right₀ _ htne
  rw [hcancel]
  have harg2 : 0 ≤ (ratTrunc (p / t + 1 / 2) : ℚ) + 1 / 2 := by
    have : (0 : ℚ) ≤ (ratTrunc (p / t + 1 / 2) : ℚ) := by exact_mod_cast hn0
    linarith
  have hhalf : ⌊(1 / 2 : ℚ)⌋ = 0 := by norm_num
  have : ratTrunc ((ratTrunc (p / t + 1 / 2) : ℚ) + 1 / 2) = ratTrunc (p / t + 1 / 2) := by
    rw [ratTrunc, if_pos harg2, Int.floor_int_add, hhalf, add_zero]
  rw [this]

/-- C8 witness: idempotence at price 3 and tick "2". -/
theorem roundToTickSize_idempotent_witness :
    roundToTickSize (roundToTickSize 3 "2") "2" = roundToTickSize 3 "2" :=
  roundToTickSize_idempotent 3 2 "2" (by with_unfolding_all decide) (by norm_num)
    (by norm_num)

/-! ### C9 — normalizer no-op on missing, zero or unparsable tick -/

/-- C9: the normalizer returns the price unchanged when the tick-size string
does not parse (in particular when it is empty) or parses to a non-positive
value (in particular "0"). -/
theorem roundToTickSize_noop (p : ℚ) :
    (∀ s, parseFloat s = none → roundToTickSize p s = p) ∧
    (∀ s t, parseFloat s = some t → t ≤ 0 → roundToTickSize p s = p) ∧
    roundToTickSize p "0" = p ∧
    roundToTickSize p "" = p := by
  have h0 : parseFloat "0" = some 0 := by with_unfolding_all decide
  have he : parseFloat "" = none := by with_unfolding_all decide
  refine ⟨?_, ?_, ?_, ?_⟩
  · intro s hs
    simp [roundToTickSize, hs]
  · intro s t hs ht
    simp [roundToTickSize, hs, ht]
  · simp [roundToTickSize, h0]
  · simp [roundToTickSize, he]

/-- C9 witness: the no-op instances at price 5 for "0", "" and an unparsable
string. -/
theorem roundToTickSize_noop_witness :
    roundToTickSize 5 "0" = 5 ∧ roundToTickSize 5 "" = 5 ∧ roundToTickSize 5 "abc" = 5 :=
  ⟨(roundToTickSize_noop 5).2.2.1, (roundToTickSize_noop 5).2.2.2,
   (roundToTickSize_noop 5).1 "abc" (by with_unfolding_all decide)⟩

/-! ### C10 — sell-order fields of created positions -/

/-- C10: assuming the gateway's successful sell responses carry a nonzero order
id, every position in the state after `executeBuy` either pre-existed or
satisfies: the active-sell-order flag holds iff the stored sell-order id is
nonzero, and when the flag holds the target sell price is exactly the
tick-normalized value of `average fill price × 1.05` — both fields are set
together, only when a limit sell was accepted. -/
theorem positions_sell_order_invariant (env : GatewayEnv) (bot : TradingBot)
    (coin : OptimizedTicker) (dropPercentage : ℚ)
    (hid : ∀ k r, env.sell k = Except.ok r → r.OrderID ≠ 0) :
    ∀ p ∈ (executeBuy env bot coin dropPercentage).1.Positions,
      p ∈ bot.Positions ∨
      ((p.HasActiveSellOrder = true ↔ p.SellOrderID ≠ 0) ∧
       (p.HasActiveSellOrder = true →
         ∃ f, env.filters = Except.ok f ∧
           ∃ resp, env.buy = Except.ok resp ∧
             p.TargetSellPrice
               = roundToTickSize (avgPrice resp coin.LastPrice * (105 / 100)) f.TickSize)) := by
  intro p hp
  by_cases hg : bot.AvailableBudget < bot.InvestmentAmount
  · left
    simpa [executeBuy, hg] using hp
  · rcases hb : env.buy with e | resp
    · left
      simpa [executeBuy, hg, hb] using hp
    · rw [show (executeBuy env bot coin dropPercentage).1.Positions
          = bot.Positions ++ [finalPosition env bot coin dropPercentage resp] from by
            simp [executeBuy, hg, hb]] at hp
      rcases List.mem_append.mp hp with h | h
      · exact Or.inl h
      · right
        have hpeq : p = finalPosition env bot coin dropPercentage resp :=
          List.mem_singleton.mp h
        subst hpeq
        rcases hf : env.filters with msg | f
        · simp only [finalPosition, hf]
          refine ⟨by simp [initialPosition], ?_⟩
          intro hT
          simp [initialPosition] at hT
        · rcases hr : (retrySell env.sell).1 with e' | r
          · simp only [finalPosition, hf, hr]
            refine ⟨by simp [initialPosition], ?_⟩
            intro hT
            simp [initialPosition] at hT
          · have hkid : r.OrderID ≠ 0 := by
              rcases retrySell_ok_exists env.sell r hr with h1 | h2 | h3
              exacts [hid 1 r h1, hid 2 r h2, hid 3 r h3]
            simp only [finalPosition, hf, hr]
            refine ⟨by simp [hkid], ?_⟩
            intro hT
            exact ⟨f, rfl, resp, rfl, by simp [initialPosition]⟩

/-- C10 witness: in the all-success environment the freshly created position
has the flag set, a nonzero sell-order id, and the tick-normalized target. -/
theorem positions_sell_order_invariant_witness :
    finalPosition sampleEnv (NewTradingBot 10) sampleCoin (-7) sampleResp
        ∈ (NewTradingBot 10).Positions ∨
      (((finalPosition sampleEnv (NewTradingBot 10) sampleCoin (-7)
            sampleResp).HasActiveSellOrder = true ↔
        (finalPosition sampleEnv (NewTradingBot 10) sampleCoin (-7)
            sampleResp).SellOrderID ≠ 0) ∧
       ((finalPosition sampleEnv (NewTradingBot 10) sampleCoin (-7)
            sampleResp).HasActiveSellOrder = true →
         ∃ f, sampleEnv.filters = Except.ok f ∧
           ∃ resp, sampleEnv.buy = Except.ok resp ∧
             (finalPosition sampleEnv (NewTradingBot 10) sampleCoin (-7)
                 sampleResp).TargetSellPrice
               = roundToTickSize (avgPrice resp sampleCoin.LastPrice * (105 / 100))
                   f.TickSize)) := by
  have hid : ∀ k r, sampleEnv.sell k = Except.ok r → r.OrderID ≠ 0 := by
    intro k r h
    simp only [sampleEnv] at h
    cases h
    norm_num [sampleSellResp]
  refine positions_sell_order_invariant sampleEnv (NewTradingBot 10) sampleCoin (-7) hid
    (finalPosition sampleEnv (NewTradingBot 10) sampleCoin (-7) sampleResp) ?_
  with_unfolding_all decide

end ReboundBot
